import Mathlib

/-!
Verification development for the dataflow pipeline builder.

The repository is a TypeScript application whose core artifacts are:

* `src/lib/brick-config.ts` — the Brick Catalog: a record from brick type
  names to a descriptor carrying a zod field schema (`schema`) and a default
  instance (`defaultValue`).  The file holds two snapshots of the catalog
  (an earlier and a later revision, separated by a document marker); both are
  embedded below as `brickConfigV1` and `brickConfigV2`.  Presentation-only
  members of each catalog entry (`description`, the UI `fields` metadata and
  the `format` function) are not part of any verified property and are not
  embedded.
* `src/components/pipelines/create-pipeline-form.tsx` (source file with
  unknown name, `src/unnamed/part_001`) — the form: its zod `formSchema`
  (processor union schema, sink schema) is the acceptance predicate for a
  pipeline definition, and its type-select handler is the brick type change
  operation.
* `src/ai/flows/validate-configuration.ts` — `validateConfigurationFlow` and
  `translateFlowToNifiFlow`.  Both consult an external text-generation model
  via `prompt(...)`.  The model calls are embedded as explicit oracle
  parameters: an oracle maps the prompt input to `Except String (Option out)`
  where `Except.error e` models the awaited call rejecting with message `e`
  and `Except.ok none` models the call resolving with a `null`/absent
  structured output.
* `src/app/actions.ts` — `validateConfigurationAction`, the server action
  wrapping the validation flow in a try/catch.
* `src/ai/flows/execute-pipeline.ts` — `executePipelineFlow`, the simulated
  executor, which parses the flow definition JSON and builds a step-by-step
  message.  JavaScript values appearing there are embedded by the `Json`
  type below together with the member-access/truthiness semantics the code
  exercises.
-/

namespace Dataflow

/-- JavaScript values produced by `JSON.parse`: null, booleans, numbers,
strings, arrays and objects.  Numbers are embedded as `Int`: every numeric
value reached by the embedded code paths (array and string lengths, loop
counters) is a non-negative integer. -/
inductive Json where
  | null : Json
  | bool (b : Bool) : Json
  | num (n : Int) : Json
  | str (s : String) : Json
  | arr (elems : List Json) : Json
  | obj (members : List (String × Json)) : Json

/-- First-match lookup in an association list with string-valued entries,
modelling JavaScript property lookup on a plain object with string values. -/
def lookupStr : List (String × String) → String → Option String
  | [], _ => none
  | (k, v) :: rest, key => if k = key then some v else lookupStr rest key

/-- First-match lookup in an association list with `Json` values, modelling
JavaScript own-property lookup on a parsed JSON object (`undefined`,
i.e. `none`, when the key is absent). -/
def lookupJson : List (String × Json) → String → Option Json
  | [], _ => none
  | (k, v) :: rest, key => if k = key then some v else lookupJson rest key

/-- One field of a brick schema in `brick-config.ts`.  Every field schema in
both catalog snapshots is either `z.string().min(1, message)` (required with
a non-emptiness message) or `z.string().optional()` (not required; the
`message` component is unused and set to `""`). -/
structure FieldSpec where
  name : String
  required : Bool
  message : String
  deriving DecidableEq

/-- A Brick Catalog entry as used by validation: the zod object schema
(`fields`) and the `properties` component of the entry's `defaultValue`.
The `defaultValue.type` component always equals the entry's key and is
reconstructed by `defaultInstance`. -/
structure BrickDescriptor where
  fields : List FieldSpec
  defaultProps : List (String × String)
  deriving DecidableEq

/-- The earlier snapshot of `brickConfig` in `src/lib/brick-config.ts`
(the first document in the file). -/
def brickConfigV1 : List (String × BrickDescriptor) :=
  [ ("HTTP",
     { fields := [⟨"port", true, "Port is required"⟩, ⟨"path", true, "Path is required"⟩],
       defaultProps := [("port", "8080"), ("path", "/data")] }),
    ("File",
     { fields := [⟨"path", true, "Path is required"⟩],
       defaultProps := [("path", "/var/data/input")] }),
    ("Database",
     { fields := [⟨"query", true, "Query is required"⟩, ⟨"interval", true, "Interval is required"⟩],
       defaultProps := [("query", "SELECT * FROM orders"), ("interval", "5 minutes")] }),
    ("CSV to JSON",
     { fields := [⟨"options", false, ""⟩],
       defaultProps := [("options", "Use first line as header")] }),
    ("XML to JSON",
     { fields := [⟨"options", false, ""⟩],
       defaultProps := [("options", "")] }),
    ("Excel to CSV",
     { fields := [⟨"sheetName", true, "Sheet name is required"⟩],
       defaultProps := [("sheetName", "Sheet1")] }),
    ("Split JSON",
     { fields := [⟨"jsonPath", true, "JSONPath is required"⟩],
       defaultProps := [("jsonPath", "$.customers[*]")] }),
    ("Add/Modify Fields",
     { fields := [⟨"joltSpec", true, "JOLT spec or description is required"⟩],
       defaultProps := [("joltSpec", "")] }),
    ("Merge Records",
     { fields := [⟨"batchSize", true, "Batch size is required"⟩],
       defaultProps := [("batchSize", "1000")] }) ]

/-- The later snapshot of `brickConfig` in `src/lib/brick-config.ts`
(the second document in the file; this is the snapshot the embedded form
imports). -/
def brickConfigV2 : List (String × BrickDescriptor) :=
  [ ("HTTP",
     { fields := [⟨"port", true, "Port is required"⟩, ⟨"path", true, "Path is required"⟩],
       defaultProps := [("port", "8080"), ("path", "/data")] }),
    ("File",
     { fields := [⟨"path", true, "Path is required"⟩],
       defaultProps := [("path", "/var/data/input")] }),
    ("Database",
     { fields := [⟨"query", true, "Query is required"⟩, ⟨"interval", true, "Interval is required"⟩],
       defaultProps := [("query", "SELECT * FROM orders"), ("interval", "5 minutes")] }),
    ("CSV to JSON",
     { fields := [⟨"reader-service-id", true, "Reader Service ID is required"⟩,
                  ⟨"writer-service-id", true, "Writer Service ID is required"⟩],
       defaultProps := [("reader-service-id", "csv-reader-service"),
                        ("writer-service-id", "json-writer-service")] }),
    ("XML to JSON",
     { fields := [⟨"xslt", false, ""⟩],
       defaultProps := [("xslt", "")] }),
    ("Excel to CSV",
     { fields := [⟨"script", true, "Script is required"⟩],
       defaultProps := [("script", "")] }),
    ("Split JSON",
     { fields := [⟨"jsonPath", true, "JSONPath is required"⟩],
       defaultProps := [("jsonPath", "$.customers[*]")] }),
    ("Add/Modify Fields",
     { fields := [⟨"joltSpec", true, "JOLT spec is required"⟩],
       defaultProps := [("joltSpec", "")] }),
    ("Merge Records",
     { fields := [⟨"batchSize", true, "Batch size is required"⟩],
       defaultProps := [("batchSize", "1000")] }) ]

/-- `sourceBrickTypes` from `src/lib/brick-config.ts` (identical in both
snapshots). -/
def sourceBrickTypes : List String := ["HTTP", "File", "Database"]

/-- `transformationBrickTypes` from `src/lib/brick-config.ts` (identical in
both snapshots). -/
def transformationBrickTypes : List String :=
  ["CSV to JSON", "XML to JSON", "Excel to CSV", "Split JSON", "Add/Modify Fields", "Merge Records"]

/-- `brickTypes = [...sourceBrickTypes, ...transformationBrickTypes]`. -/
def brickTypes : List String := sourceBrickTypes ++ transformationBrickTypes

/-- Own-property lookup of a catalog key: the association-list view of the
`brickConfig` object literal's own entries.  This is the lookup relevant
wherever the code enumerates the catalog's own entries
(`Object.entries(brickConfig)` in the form's union schema) or is applied to
a name already known to be a catalog key; a raw JavaScript element access
`brickConfig[type]` additionally consults the `Object.prototype` chain,
which `brickConfigAccess` models on top of this. -/
def lookupCatalog : List (String × BrickDescriptor) → String → Option BrickDescriptor
  | [], _ => none
  | (k, d) :: rest, key => if k = key then some d else lookupCatalog rest key

/-- The member names of `Object.prototype`, from which every JavaScript
object literal — `brickConfig` included — inherits. -/
def objectPrototypeMembers : List String :=
  ["constructor", "hasOwnProperty", "isPrototypeOf", "propertyIsEnumerable",
   "toLocaleString", "toString", "valueOf",
   "__defineGetter__", "__defineSetter__", "__lookupGetter__", "__lookupSetter__",
   "__proto__"]

/-- Result of the raw JavaScript property access `brickConfig[key]`: the
own catalog entry's descriptor, a member inherited from `Object.prototype`
(a function, or the prototype object for `__proto__` — in either case a
defined, truthy value, not `undefined`), or `undefined`. -/
inductive BrickLookupResult where
  | descriptor (d : BrickDescriptor) : BrickLookupResult
  | inherited (name : String) : BrickLookupResult
  | jsUndefined : BrickLookupResult
  deriving DecidableEq

/-- The raw property access `brickConfig[key]` with JavaScript semantics:
an own key yields its descriptor; otherwise the `Object.prototype` chain is
consulted, so a prototype member name yields the inherited member; only
names found in neither place yield `undefined`. -/
def brickConfigAccess (catalog : List (String × BrickDescriptor)) (key : String) :
    BrickLookupResult :=
  match lookupCatalog catalog key with
  | some d => .descriptor d
  | none => if key ∈ objectPrototypeMembers then .inherited key else .jsUndefined

/-- `getBrickConfig` from `src/lib/brick-config.ts`:
`type ? brickConfig[type as keyof typeof brickConfig] : undefined`.
`none` embeds the argument being `undefined`; an empty string is falsy in
JavaScript, so it also takes the `undefined` branch; otherwise the result
is the raw property access, prototype chain included. -/
def getBrickConfig (catalog : List (String × BrickDescriptor)) :
    Option String → BrickLookupResult
  | none => .jsUndefined
  | some t => if t = "" then .jsUndefined else brickConfigAccess catalog t

/-- zod check of one field of a brick object schema against a properties
record: a required field that is absent fails (zod reports `Required` for a
missing member), a required field present with the empty string fails its
`min(1, message)` check with `message`, and an optional field never fails
(both optional fields in the catalogs are bare `z.string().optional()`).
Returns the diagnostic `(fieldName, message)` on failure. -/
def validateField (props : List (String × String)) (f : FieldSpec) :
    Option (String × String) :=
  match lookupStr props f.name with
  | none => if f.required then some (f.name, "Required") else none
  | some v => if f.required && v = "" then some (f.name, f.message) else none

/-- zod check of a whole brick object schema: the list of all field
diagnostics, in schema field order (zod collects every issue of an object
parse). -/
def validateProps (schema : List FieldSpec) (props : List (String × String)) :
    List (String × String) :=
  schema.filterMap (validateField props)

/-- A brick instance: the `{ type, properties }` objects stored in the
`processors` array of the form. -/
structure Brick where
  type : String
  properties : List (String × String)
  deriving DecidableEq

/-- `defaultInstance(type)`: the `defaultValue` object of the catalog entry
for `type` (its `type` member always equals the entry key in the source). -/
def defaultInstance (catalog : List (String × BrickDescriptor)) (t : String) :
    Option Brick :=
  (lookupCatalog catalog t).map (fun d => ⟨t, d.defaultProps⟩)

/-- Acceptance of one processor by the form's `processorUnionSchema`
(`z.union` over all catalog entries of
`z.object({ type: z.literal(key), properties: entry.schema })`): the type
must be a registered key and the properties must raise no schema
diagnostic. -/
def brickAccepted (catalog : List (String × BrickDescriptor)) (b : Brick) : Bool :=
  match lookupCatalog catalog b.type with
  | none => false
  | some d => (validateProps d.fields b.properties).isEmpty

/-- Splits a character list at the first occurrence of `://`, returning the
part before it (accumulated in reverse) and the part after it. -/
def urlSplitAux : List Char → List Char → Option (List Char × List Char)
  | [], _ => none
  | c :: rest, acc =>
    match c, rest with
    | ':', '/' :: '/' :: tail => some (acc.reverse, tail)
    | _, _ => urlSplitAux rest (c :: acc)

/-- Approximation of the zod `z.string().url("Must be a valid URL.")` check
in the sink schema (zod delegates to the WHATWG URL constructor): a
non-empty alphabetic scheme followed by `://` and a non-empty remainder.
No theorem in this development depends on the boundary of URL validity;
the check is only ever evaluated on plainly well-formed URLs such as
`http://localhost:9200`. -/
def isValidUrl (s : String) : Bool :=
  match urlSplitAux s.toList [] with
  | some (scheme, rest) => !scheme.isEmpty && scheme.all Char.isAlpha && !rest.isEmpty
  | none => false

/-- The `sink` object of the form: `{ type, properties }` with string-valued
properties (`elasticsearchUrl`, `index`, `user`, `password`). -/
structure FormSink where
  type : String
  properties : List (String × String)
  deriving DecidableEq

/-- Acceptance by `sinkSchema` of the form
(`src/unnamed/part_001`): the type must be the literal `Elasticsearch`,
`elasticsearchUrl` must be present and a valid URL, `index` must be present
and non-empty (`min(1)`), and `user`/`password` are optional strings. -/
def sinkAccepted (s : FormSink) : Bool :=
  s.type = "Elasticsearch" &&
  (match lookupStr s.properties "elasticsearchUrl" with
   | some u => isValidUrl u
   | none => false) &&
  (match lookupStr s.properties "index" with
   | some i => decide (i ≠ "")
   | none => false)

/-- The value of the creation form: pipeline name, ordered processors array
(first element conventionally the source) and the sink object. -/
structure PipelineForm where
  name : String
  processors : List Brick
  sink : FormSink
  deriving DecidableEq

/-- Acceptance by the zod `formSchema` of the form component:
`name` at least 3 characters, `processors` a non-empty array each of whose
elements passes the processor union schema, and the sink passing
`sinkSchema`.  This is the predicate behind `form.trigger()` /
`zodResolver(formSchema)`: a pipeline definition the system accepts is
exactly one satisfying it. -/
def formAccepts (catalog : List (String × BrickDescriptor)) (f : PipelineForm) : Bool :=
  decide (3 ≤ f.name.length) &&
  decide (1 ≤ f.processors.length) &&
  f.processors.all (brickAccepted catalog) &&
  sinkAccepted f.sink

/-- The options offered by the brick type selector at a given processor
index (`index === 0 ? sourceBrickTypes : transformationBrickTypes` in the
form component). -/
def selectableBrickTypes (index : Nat) : List String :=
  if index = 0 then sourceBrickTypes else transformationBrickTypes

/-- The type-select change handler of the form component: it looks up the
newly chosen type and replaces the whole array entry at `index` with that
type's `defaultValue` (`update(index, brickConfig[newBrickType].defaultValue)`).
`none` embeds the JavaScript property access throwing when the chosen value
is not a catalog key (the selector only ever offers catalog keys). -/
def changeBrickType (catalog : List (String × BrickDescriptor))
    (processors : List Brick) (index : Nat) (newBrickType : String) :
    Option (List Brick) :=
  (defaultInstance catalog newBrickType).map (fun b => processors.set index b)

/-! ### The validation flows (`validate-configuration.ts`, `actions.ts`)

The two Genkit flows await an external text-generation model.  The model is
embedded as an oracle argument; each flow consults it at the prompt input
the code constructs.  `Except.error e` models the awaited model call
rejecting with message `e`; `Except.ok none` models it resolving with no
structured output (`output` being `null`/`undefined`). -/

/-- Input of `validateConfigurationFlow`: `{ flowDefinition, sourceType }`. -/
structure ValidateInput where
  flowDefinition : String
  sourceType : String
  deriving DecidableEq

/-- Output of `validateConfigurationFlow`: `{ isValid, feedback }` — the
`ValidationResult` the system reports. -/
structure ValidateOutput where
  isValid : Bool
  feedback : String
  deriving DecidableEq

/-- Input of `translateFlowToNifiFlow` as constructed inside
`validateConfigurationFlow`: `{ flowDefinition, sourceType }` (the snapshot
of `validate-configuration.ts` under verification builds the translate input
from exactly these two members). -/
structure TranslateInput where
  flowDefinition : String
  sourceType : String
  deriving DecidableEq

/-- One concrete NiFi processor in the translated plan. -/
structure NifiProcessor where
  type : String
  name : String
  properties : List (String × Json)

/-- Output of `translateFlowToNifiFlow`: `{ processors }`, the compiled
plan. -/
structure TranslateOutput where
  processors : List NifiProcessor

/-- The translate input `validateConfigurationFlow` builds from its own
input. -/
def mkTranslateInput (input : ValidateInput) : TranslateInput :=
  ⟨input.flowDefinition, input.sourceType⟩

/-- Oracle for the logical-validation prompt of
`validateConfigurationFlow`. -/
def PromptOracle : Type :=
  ValidateInput → Except String (Option ValidateOutput)

/-- Oracle for the translation prompt of `translateFlowToNifiFlow`. -/
def TranslateOracle : Type :=
  TranslateInput → Except String (Option TranslateOutput)

/-- `translateFlowToNifiFlow`: one model call; if it rejects the flow
raises that error, if it resolves without structured output the flow throws
`Failed to get a translated output from the AI model.`, otherwise the
model's complete output object is returned unchanged. -/
def translateFlowToNifiFlow (model : TranslateOracle) (input : TranslateInput) :
    Except String TranslateOutput :=
  match model input with
  | .error e => .error e
  | .ok none => .error "Failed to get a translated output from the AI model."
  | .ok (some out) => .ok out

/-- The feedback string `validateConfigurationFlow` returns when the
translation step throws (its catch branch), with the caught message
appended. -/
def translationFailFeedback (msg : String) : String :=
  "The flow logic seems plausible, but it failed to be translated into a concrete NiFi plan. This usually means there is a subtle error in the properties or flow structure. \n\nTranslation Error: " ++ msg

/-- `validateConfigurationFlow`: first the logical-validation prompt; if its
output is absent or not valid the flow returns that output directly
(returning an absent output fails the flow's output schema, embedded as an
error); otherwise it runs the translation and returns valid with the
logical feedback, or — when translation throws — invalid with
`translationFailFeedback`.  Only the translation call is guarded by
try/catch in the source, so a rejection of the first prompt propagates as
an error. -/
def validateConfigurationFlow (promptModel : PromptOracle)
    (translateModel : TranslateOracle) (input : ValidateInput) :
    Except String ValidateOutput :=
  match promptModel input with
  | .error e => .error e
  | .ok none => .error "validateConfigurationFlow returned no structured output"
  | .ok (some logical) =>
    if logical.isValid = false then .ok logical
    else
      match translateFlowToNifiFlow translateModel (mkTranslateInput input) with
      | .ok _ => .ok ⟨true, logical.feedback⟩
      | .error msg => .ok ⟨false, translationFailFeedback msg⟩

/-- `validateConfigurationAction` from `src/app/actions.ts`: the server
action calls the flow inside try/catch and converts any thrown error into
an invalid `ValidationResult` instead of raising.  (Its zod input-shape
check always succeeds on the typed input embedded here.) -/
def validateConfigurationAction (promptModel : PromptOracle)
    (translateModel : TranslateOracle) (input : ValidateInput) : ValidateOutput :=
  match validateConfigurationFlow promptModel translateModel input with
  | .ok result => result
  | .error msg =>
    ⟨false, "An unexpected error occurred while validating the configuration: " ++ msg⟩

/-! ### The simulated executor (`execute-pipeline.ts`)

`executePipelineFlow` parses `flowDefinition` with `JSON.parse` and builds a
step-by-step message inside a try/catch.  `JSON.parse` is a JavaScript
builtin; its result is embedded as an `Except String Json` argument whose
error case carries the syntax-error message of a failed parse.  The member
accesses the code performs (`flow.processors`, `?.length`, `[i]`,
`processor.type`, `sinkDetails.index`) are embedded with their JavaScript
semantics: reading a member of `null`/`undefined` throws, reading an absent
member yields `undefined` (`Option.none` at the value position). -/

/-- Own-member read on a (non-null, non-undefined) JavaScript value:
objects look up the key, arrays and strings expose `length`, every other
read yields `undefined`. -/
def jsMemberTotal : Json → String → Option Json
  | .obj members, key => lookupJson members key
  | .arr elems, key => if key = "length" then some (.num elems.length) else none
  | .str s, key => if key = "length" then some (.num s.length) else none
  | _, _ => none

/-- Member read that models the JavaScript TypeError on a `null` or
`undefined` receiver; otherwise defers to `jsMemberTotal`. -/
def jsMemberThrow : Option Json → String → Except String (Option Json)
  | none, key => .error ("Cannot read properties of undefined (reading " ++ key ++ ")")
  | some .null, key => .error ("Cannot read properties of null (reading " ++ key ++ ")")
  | some v, key => .ok (jsMemberTotal v key)

/-- The optional chain `v?.length`: `undefined` when `v` is `null` or
`undefined`, otherwise the `length` member. -/
def jsOptChainLength : Option Json → Option Json
  | none => none
  | some .null => none
  | some v => jsMemberTotal v "length"

/-- JavaScript truthiness of a value (with `none` embedding `undefined`). -/
def jsTruthy : Option Json → Bool
  | none => false
  | some .null => false
  | some (.bool b) => b
  | some (.num n) => decide (n ≠ 0)
  | some (.str s) => decide (s ≠ "")
  | some (.arr _) => true
  | some (.obj _) => true

/-- Number of iterations of `for (let i = 0; i < numSteps; i++)` for the
value held by `numSteps`.  On the embedded code paths this value is always
a number (an array length or the literal `0`); a non-numeric value would
engage JavaScript number coercion, which is outside this model and outside
every theorem below, and is folded to zero iterations. -/
def jsLoopCount : Option Json → Nat
  | some (.num n) => n.toNat
  | _ => 0

/-- Indexing `v[i]`: arrays index positionally (`undefined` out of range),
objects look up the decimal string key, anything else yields `undefined`
(`null`/`undefined` receivers cannot reach the loop that performs the
indexing, since their `?.length` chain already produced zero iterations;
they are still mapped to the JavaScript TypeError for totality). -/
def jsIndex : Option Json → Nat → Except String (Option Json)
  | none, _ => .error "Cannot read properties of undefined (indexing)"
  | some .null, _ => .error "Cannot read properties of null (indexing)"
  | some (.arr elems), i => .ok elems[i]?
  | some (.obj members), i => .ok (lookupJson members (toString i))
  | some _, _ => .ok none

/-- String interpolation of a JavaScript value inside a template literal.
Container values stringify through `Array.prototype.toString` /
`Object.prototype.toString`; nested containers inside an array are
flattened by JavaScript and approximated here one level deep (no theorem
interpolates a container). -/
def jsDisplay : Option Json → String
  | none => "undefined"
  | some .null => "null"
  | some (.bool b) => if b then "true" else "false"
  | some (.num n) => toString n
  | some (.str s) => s
  | some (.arr elems) =>
      String.intercalate ","
        (elems.map (fun e =>
          match e with
          | .null => ""
          | .bool b => if b then "true" else "false"
          | .num n => toString n
          | .str s => s
          | .arr _ => ""
          | .obj _ => "[object Object]"))
  | some (.obj _) => "[object Object]"

/-- The sink argument of `executePipelineFlow`:
`{ type: string, properties: record }` (`z.record(z.any())`, so the
properties carry arbitrary JSON values). -/
structure ExecSink where
  type : String
  properties : List (String × Json)

/-- The first line of the simulated-execution message. -/
def introLine (name : String) : String :=
  "Simulated execution for pipeline \"" ++ name ++ "\" started.\n"

/-- The ingestion step line (step 1). -/
def ingestLine (sourceType : String) : String :=
  "Step 1: Ingesting data from source type \"" ++ sourceType ++ "\".\n"

/-- One transformation step line of the loop body, for loop index `i`
(printed as step `i + 2`) and processor value `p`. -/
def transformLine (i : Nat) (p : Json) : String :=
  "Step " ++ toString (i + 2) ++ ": Applying transformation \"" ++
    jsDisplay (jsMemberTotal p "type") ++ "\".\n"

/-- The sink step line (step `numSteps + 2`). -/
def writeLine (sink : ExecSink) (numSteps : Nat) : String :=
  "Step " ++ toString (numSteps + 2) ++ ": Writing data to " ++ sink.type ++
    " at index \"" ++ jsDisplay (lookupJson sink.properties "index") ++ "\".\n"

/-- The closing line of the message. -/
def footerLine (numSteps : Nat) : String :=
  "\nSuccessfully simulated execution of " ++ toString (numSteps + 2) ++ " steps."

/-- The message-building loop of `executePipelineFlow`:
`const processor = flow.processors[i]; message += 'Step i+2: Applying
transformation "processor.type".'` for `i` from the current index up to
`numSteps`; a throwing member access aborts the whole loop (and with it the
surrounding try block). -/
def runLoop (procs : Option Json) (numSteps : Nat) (i : Nat) :
    Except String String :=
  if i < numSteps then do
    let processor ← jsIndex procs i
    let t ← jsMemberThrow processor "type"
    let rest ← runLoop procs numSteps (i + 1)
    pure ("Step " ++ toString (i + 2) ++ ": Applying transformation \"" ++
      jsDisplay t ++ "\".\n" ++ rest)
  else pure ""
termination_by numSteps - i

/-- The try block of `executePipelineFlow`: bind the parse result, read
`flow.processors`, compute `numSteps = flow.processors?.length || 0`, run
the loop, then append the sink step and the closing line. -/
def simulateRun (name sourceType : String) (sink : ExecSink)
    (parsed : Except String Json) : Except String String := do
  let flow ← parsed
  let procs ← jsMemberThrow (some flow) "processors"
  let lenVal := jsOptChainLength procs
  let numStepsVal := if jsTruthy lenVal then lenVal else some (Json.num 0)
  let numSteps := jsLoopCount numStepsVal
  let body ← runLoop procs numSteps 0
  pure (introLine name ++ ingestLine sourceType ++ body ++
    writeLine sink numSteps ++ footerLine numSteps)

/-- Output of `executePipelineFlow`: `{ success, message }`. -/
structure ExecOutput where
  success : Bool
  message : String
  deriving DecidableEq

/-- `executePipelineFlow`: the try block on success yields
`{ success: true, message }`; any throw (parse failure or member access on
`null`/`undefined`) is caught and yields `{ success: false, ... }` with the
caught message interpolated. -/
def executePipelineFlowModel (name sourceType : String) (sink : ExecSink)
    (parsed : Except String Json) : ExecOutput :=
  match simulateRun name sourceType sink parsed with
  | .ok message => ⟨true, message⟩
  | .error e =>
    ⟨false, "An error occurred during the simulated pipeline execution: " ++ e ++
      ". Check if the flow definition is valid JSON."⟩

/-- Specification-side rendering of the transformation step lines: one line
per processor, in definition order, starting at loop index `i`.  Stated
from the ordering sentence of the plan model section of the specification
and proved equal to the loop-built message. -/
def specTransformLines : List Json → Nat → String
  | [], _ => ""
  | p :: rest, i => transformLine i p ++ specTransformLines rest (i + 1)

/-- The field diagnostics the form validation reports for one brick: the
zod issues of its catalog schema (`none` when the type is not a catalog
key, in which case the union schema fails on the `type` literal instead). -/
def brickDiagnostics (catalog : List (String × BrickDescriptor)) (b : Brick) :
    Option (List (String × String)) :=
  (lookupCatalog catalog b.type).map (fun d => validateProps d.fields b.properties)

/-- Whether the default instance of a brick type passes that same type's
field schema (the catalog self-consistency check). -/
def defaultPasses (catalog : List (String × BrickDescriptor)) (t : String) : Bool :=
  match defaultInstance catalog t with
  | some b => brickAccepted catalog b
  | none => false

/-! ### Concrete values used by witnesses and counterexamples -/

/-- A sink object filled exactly like the form's default values. -/
def elasticsearchSinkEx : FormSink :=
  ⟨"Elasticsearch",
   [("elasticsearchUrl", "http://localhost:9200"), ("index", "orders"),
    ("user", ""), ("password", "")]⟩

/-- A well-formed pipeline: HTTP source with its default properties, no
transformations, Elasticsearch sink. -/
def validHttpFormEx : PipelineForm :=
  ⟨"Orders API ingestion",
   [⟨"HTTP", [("port", "8080"), ("path", "/data")]⟩],
   elasticsearchSinkEx⟩

/-- A pipeline whose single (first, hence source-slot) processor is of the
Transformation category. -/
def splitFirstFormEx : PipelineForm :=
  ⟨"Split only pipeline",
   [⟨"Split JSON", [("jsonPath", "$.customers[*]")]⟩],
   elasticsearchSinkEx⟩

/-- A logical-validation model response reporting the flow invalid. -/
def promptSaysInvalidEx : PromptOracle :=
  fun _ => .ok (some ⟨false, "The source brick is missing a listening port."⟩)

/-- A logical-validation model response reporting the flow valid. -/
def promptSaysValidEx : PromptOracle :=
  fun _ => .ok (some ⟨true, "The flow is logically coherent."⟩)

/-- A logical-validation model response equal to `promptSaysValidEx` on
inputs with source type `HTTP` and rejecting otherwise. -/
def promptSaysValidHttpOnlyEx : PromptOracle :=
  fun input =>
    if input.sourceType = "HTTP" then .ok (some ⟨true, "The flow is logically coherent."⟩)
    else .error "unsupported source"

/-- A logical-validation model call that rejects (network failure). -/
def promptThrowsEx : PromptOracle := fun _ => .error "model unavailable"

/-- A translation model call resolving without structured output. -/
def translateNoOutputEx : TranslateOracle := fun _ => .ok none

/-- A translation model call resolving with an empty plan. -/
def translateEmptyPlanEx : TranslateOracle := fun _ => .ok (some ⟨[]⟩)

/-- A translation model call that rejects. -/
def translateThrowsEx : TranslateOracle := fun _ => .error "Jolt spec unparseable"

/-- A sample validation input. -/
def sampleValidateInputEx : ValidateInput := ⟨"[]", "HTTP"⟩

/-- A sample executor sink argument. -/
def execSinkEx : ExecSink := ⟨"Elasticsearch", [("index", Json.str "orders")]⟩

/-! ### Helper lemmas -/

/-- Catalog lookup misses exactly the non-keys. -/
lemma lookupCatalog_eq_none (catalog : List (String × BrickDescriptor)) (t : String)
    (h : t ∉ catalog.map Prod.fst) : lookupCatalog catalog t = none := by
  induction catalog with
  | nil => rfl
  | cons e rest ih =>
    simp only [List.map_cons, List.mem_cons, not_or] at h
    obtain ⟨k, d⟩ := e
    simp only [lookupCatalog]
    rw [if_neg (fun he => h.1 (by simpa using he.symm))]
    exact ih h.2

/-- Member read on a value that is neither `null` nor `undefined` never
throws. -/
lemma jsMemberThrow_ok (v : Json) (key : String) (h : v ≠ Json.null) :
    jsMemberThrow (some v) key = .ok (jsMemberTotal v key) := by
  cases v with
  | null => exact absurd rfl h
  | bool b => rfl
  | num n => rfl
  | str s => rfl
  | arr elems => rfl
  | obj members => rfl

/-- The message-building loop over an array of non-null processors produces
exactly the specification-side transformation lines of the remaining
suffix, in order. -/
lemma runLoop_arr (ps : List Json) (hnn : ∀ p ∈ ps, p ≠ Json.null) :
    ∀ i, runLoop (some (Json.arr ps)) ps.length i =
      .ok (specTransformLines (ps.drop i) i) := by
  have main : ∀ k i, ps.length - i ≤ k →
      runLoop (some (Json.arr ps)) ps.length i =
        .ok (specTransformLines (ps.drop i) i) := by
    intro k
    induction k with
    | zero =>
      intro i hk
      have hge : ¬ i < ps.length := by omega
      rw [runLoop]
      simp [hge, List.drop_eq_nil_of_le (by omega : ps.length ≤ i), specTransformLines,
        Pure.pure, Except.pure]
    | succ k ih =>
      intro i hk
      by_cases hlt : i < ps.length
      · rw [runLoop]
        have hp : ps[i]? = some ps[i] := List.getElem?_eq_getElem hlt
        have hmem : ps[i] ∈ ps := List.getElem_mem hlt
        have hdrop : ps.drop i = ps[i] :: ps.drop (i + 1) := List.drop_eq_getElem_cons hlt
        rw [hdrop]
        simp only [hlt, if_true, jsIndex, hp, jsMemberThrow_ok ps[i] "type" (hnn _ hmem),
          ih (i + 1) (by omega), specTransformLines, transformLine,
          Bind.bind, Except.bind, Pure.pure, Except.pure]
      · rw [runLoop]
        simp [hlt, List.drop_eq_nil_of_le (by omega : ps.length ≤ i), specTransformLines,
          Pure.pure, Except.pure]
  exact fun i => main (ps.length - i) i le_rfl

/-- The try block on a parsed object whose `processors` member is an array
of non-null values: the full message, with the transformation lines in
array order between the ingestion line and the sink line. -/
lemma simulateRun_obj_arr (name sourceType : String) (sink : ExecSink)
    (ms : List (String × Json)) (ps : List Json)
    (hm : lookupJson ms "processors" = some (Json.arr ps))
    (hnn : ∀ p ∈ ps, p ≠ Json.null) :
    simulateRun name sourceType sink (.ok (Json.obj ms)) =
      .ok (introLine name ++ ingestLine sourceType ++ specTransformLines ps 0 ++
        writeLine sink ps.length ++ footerLine ps.length) := by
  have hloop := runLoop_arr ps hnn 0
  by_cases hz : ps.length = 0
  · obtain rfl : ps = [] := List.length_eq_zero.mp hz
    simp [simulateRun, jsMemberThrow, jsMemberTotal, hm, jsOptChainLength, jsTruthy,
      jsLoopCount, runLoop, specTransformLines,
      Bind.bind, Except.bind, Pure.pure, Except.pure]
  · have hz2 : ¬ ((ps.length : Int) = 0) := by exact_mod_cast hz
    have htoNat : ((ps.length : Int)).toNat = ps.length := rfl
    simp only [simulateRun, jsMemberThrow, hm, jsMemberTotal, jsOptChainLength,
      jsTruthy, hz2, jsLoopCount, decide_eq_true_eq,
      Bind.bind, Except.bind, Pure.pure, Except.pure, if_false,
      Bool.not_eq_true', decide_eq_false_iff_not]
    rw [if_pos (by simp [hz2])]
    simp [htoNat, hloop, List.drop]

/-- The try block on a parsed object without a `processors` member: zero
loop iterations, sink step numbered 2. -/
lemma simulateRun_obj_none (name sourceType : String) (sink : ExecSink)
    (ms : List (String × Json)) (hm : lookupJson ms "processors" = none) :
    simulateRun name sourceType sink (.ok (Json.obj ms)) =
      .ok (introLine name ++ ingestLine sourceType ++ "" ++
        writeLine sink 0 ++ footerLine 0) := by
  simp [simulateRun, jsMemberThrow, jsMemberTotal, hm, jsOptChainLength, jsTruthy,
    jsLoopCount, runLoop, Bind.bind, Except.bind, Pure.pure, Except.pure]

/-! ### Claim theorems -/

/-- C3 counterexample: the catalog is not self-consistent.  The type
`Add/Modify Fields` is registered (in both catalog snapshots) with the
required field `joltSpec` (`min(1)`) yet a default instance whose
`joltSpec` is the empty string, so its default instance fails its own
field schema; in the later snapshot `Excel to CSV` (required `script`,
default empty) fails as well. -/
theorem c3_default_instance_fails :
    ("Add/Modify Fields" ∈ brickTypes) ∧
    defaultPasses brickConfigV1 "Add/Modify Fields" = false ∧
    defaultPasses brickConfigV2 "Add/Modify Fields" = false ∧
    defaultPasses brickConfigV2 "Excel to CSV" = false :=
  ⟨by decide, by decide, by decide, by decide⟩

/-- C3 (amended): for every brick type registered in the catalog other
than `Add/Modify Fields` (and, in the later catalog snapshot, also
`Excel to CSV`), the default instance produced for that type passes the
type's own field validation schema. -/
theorem c3_defaults_self_consistent :
    ((brickTypes.filter (fun t => !(t == "Add/Modify Fields"))).all
      (defaultPasses brickConfigV1) = true) ∧
    ((brickTypes.filter
        (fun t => !(t == "Add/Modify Fields") && !(t == "Excel to CSV"))).all
      (defaultPasses brickConfigV2) = true) :=
  ⟨by decide, by decide⟩

/-- C7: a pipeline whose first (source-slot) brick has type `HTTP` with an
empty `path` property is rejected by the form validation, and the field
diagnostics of that brick name the `path` field with the message
`Path is required`. -/
theorem c7_http_empty_path_rejected (f : PipelineForm) (b : Brick)
    (hb : f.processors.head? = some b) (ht : b.type = "HTTP")
    (hp : lookupStr b.properties "path" = some "") :
    (∃ diags, brickDiagnostics brickConfigV2 b = some diags ∧
      ("path", "Path is required") ∈ diags) ∧
    formAccepts brickConfigV2 f = false := by
  have hd : lookupCatalog brickConfigV2 b.type =
      some ⟨[⟨"port", true, "Port is required"⟩, ⟨"path", true, "Path is required"⟩],
        [("port", "8080"), ("path", "/data")]⟩ := by
    rw [ht]; rfl
  have hfield : validateField b.properties ⟨"path", true, "Path is required"⟩ =
      some ("path", "Path is required") := by
    simp [validateField, hp]
  have hmem : ("path", "Path is required") ∈
      validateProps [⟨"port", true, "Port is required"⟩,
        ⟨"path", true, "Path is required"⟩] b.properties := by
    simp only [validateProps, List.mem_filterMap]
    exact ⟨⟨"path", true, "Path is required"⟩, by simp, hfield⟩
  have hacc : brickAccepted brickConfigV2 b = false := by
    simp only [brickAccepted, hd]
    simpa [List.isEmpty_iff] using List.ne_nil_of_mem hmem
  obtain ⟨tl, hcons⟩ : ∃ tl, f.processors = b :: tl := by
    cases hps : f.processors with
    | nil => rw [hps] at hb; cases hb
    | cons a tl =>
      rw [hps] at hb
      simp only [List.head?] at hb
      exact ⟨tl, by rw [← Option.some_inj.mp hb]⟩
  refine ⟨⟨_, by simp [brickDiagnostics, hd], hmem⟩, ?_⟩
  simp [formAccepts, hcons, hacc]

/-- C7 witness: the concrete HTTP source brick with an empty path, alone in
front of a well-formed Elasticsearch sink, is rejected with the `path`
diagnostic. -/
theorem c7_http_empty_path_rejected_witness :
    (∃ diags,
      brickDiagnostics brickConfigV2 ⟨"HTTP", [("port", "8080"), ("path", "")]⟩ = some diags ∧
      ("path", "Path is required") ∈ diags) ∧
    formAccepts brickConfigV2
      ⟨"Orders API ingestion", [⟨"HTTP", [("port", "8080"), ("path", "")]⟩],
        elasticsearchSinkEx⟩ = false :=
  c7_http_empty_path_rejected
    ⟨"Orders API ingestion", [⟨"HTTP", [("port", "8080"), ("path", "")]⟩], elasticsearchSinkEx⟩
    ⟨"HTTP", [("port", "8080"), ("path", "")]⟩ rfl rfl rfl

/-- C10 counterexample: `getBrickConfig` is a raw property access on an
object literal, so it inherits from `Object.prototype` — for the
unregistered name `toString` it returns the inherited function, a defined
value, not `undefined`.  The claim's universal "any unregistered name
returns undefined" is false at this input. -/
theorem c10_prototype_member_leaks :
    ("toString" ∉ brickConfigV2.map Prod.fst) ∧
    getBrickConfig brickConfigV2 (some "toString") =
      BrickLookupResult.inherited "toString" ∧
    getBrickConfig brickConfigV2 (some "toString") ≠ BrickLookupResult.jsUndefined :=
  ⟨by decide, by decide, by decide⟩

/-- C10 (amended): catalog lookup is total and never throws — `undefined`
(and the falsy empty string) map to `undefined`, every registered key maps
to its own descriptor, and every unregistered name that is not an
`Object.prototype` member name — including the sink type `Elasticsearch`,
which is not a catalog key — maps to `undefined`; an unregistered name
that is an `Object.prototype` member name (`toString`, `valueOf`,
`hasOwnProperty`, ...) instead leaks the inherited member, a defined
value. -/
theorem c10_lookup_total :
    (getBrickConfig brickConfigV2 none = BrickLookupResult.jsUndefined) ∧
    (getBrickConfig brickConfigV2 (some "Elasticsearch") = BrickLookupResult.jsUndefined) ∧
    (brickConfigV2.all
      (fun e => decide (getBrickConfig brickConfigV2 (some e.1) =
        BrickLookupResult.descriptor e.2)) = true) ∧
    (∀ s : String, s ∉ brickConfigV2.map Prod.fst → s ∉ objectPrototypeMembers →
      getBrickConfig brickConfigV2 (some s) = BrickLookupResult.jsUndefined) ∧
    (∀ s : String, s ∉ brickConfigV2.map Prod.fst → s ∈ objectPrototypeMembers →
      getBrickConfig brickConfigV2 (some s) = BrickLookupResult.inherited s) := by
  refine ⟨rfl, by decide, by decide, ?_, ?_⟩
  · intro s hs hproto
    by_cases he : s = ""
    · simp [getBrickConfig, he]
    · simp [getBrickConfig, he, brickConfigAccess,
        lookupCatalog_eq_none brickConfigV2 s hs, hproto]
  · intro s hs hproto
    have he : ¬ s = "" := by
      intro he
      rw [he] at hproto
      exact absurd hproto (by decide)
    simp [getBrickConfig, he, brickConfigAccess,
      lookupCatalog_eq_none brickConfigV2 s hs, hproto]

/-- C10 witness: a concrete unregistered non-prototype name is looked up
as `undefined`, and a concrete prototype member name leaks the inherited
member. -/
theorem c10_lookup_total_witness :
    ("Parquet to JSON" ∉ brickConfigV2.map Prod.fst) ∧
    ("Parquet to JSON" ∉ objectPrototypeMembers) ∧
    getBrickConfig brickConfigV2 (some "Parquet to JSON") = BrickLookupResult.jsUndefined ∧
    ("valueOf" ∈ objectPrototypeMembers) ∧
    getBrickConfig brickConfigV2 (some "valueOf") = BrickLookupResult.inherited "valueOf" :=
  ⟨by decide, by decide,
   c10_lookup_total.2.2.2.1 "Parquet to JSON" (by decide) (by decide),
   by decide,
   c10_lookup_total.2.2.2.2 "valueOf" (by decide) (by decide)⟩

/-- C8: changing the type of the brick at any valid index replaces that
whole array entry with the chosen type's default instance — the resulting
entry is exactly `(newType, its default properties)`, independent of the
old entry, so no field of the old properties survives. -/
theorem c8_type_change_resets (ps : List Brick) (i : Nat) (t : String)
    (d : BrickDescriptor) (hd : lookupCatalog brickConfigV2 t = some d)
    (hi : i < ps.length) :
    ∃ ps2, changeBrickType brickConfigV2 ps i t = some ps2 ∧
      ps2.length = ps.length ∧ ps2[i]? = some ⟨t, d.defaultProps⟩ := by
  refine ⟨ps.set i ⟨t, d.defaultProps⟩, ?_, by simp, ?_⟩
  · simp [changeBrickType, defaultInstance, hd]
  · simp [List.getElem?_set, hi]

/-- C8 witness: changing the only brick of a pipeline from `HTTP` to
`Split JSON` yields the `Split JSON` default instance in that slot. -/
theorem c8_type_change_resets_witness :
    ∃ ps2,
      changeBrickType brickConfigV2 [⟨"HTTP", [("port", "8080"), ("path", "/data")]⟩]
        0 "Split JSON" = some ps2 ∧
      ps2.length = 1 ∧
      ps2[0]? = some ⟨"Split JSON", [("jsonPath", "$.customers[*]")]⟩ :=
  c8_type_change_resets [⟨"HTTP", [("port", "8080"), ("path", "/data")]⟩] 0 "Split JSON"
    ⟨[⟨"jsonPath", true, "JSONPath is required"⟩], [("jsonPath", "$.customers[*]")]⟩
    (by decide) (by decide)

/-- C5 counterexample: the acceptance schema performs no category check on
the source slot — a pipeline whose first (source-slot) processor has the
Transformation-category type `Split JSON` passes the form validation. -/
theorem c5_source_slot_not_category_checked :
    formAccepts brickConfigV2 splitFirstFormEx = true ∧
    splitFirstFormEx.processors.head?.map Brick.type = some "Split JSON" ∧
    ("Split JSON" ∉ sourceBrickTypes) ∧
    ("Split JSON" ∈ transformationBrickTypes) :=
  ⟨by decide, rfl, by decide, by decide⟩

/-- C5 (amended): accepted pipeline definitions have sink type exactly
`Elasticsearch` and every processor of a registered type passing that
type's field schema; the Source-first / Transformation-later restriction is
enforced only by the type-selector options (source types at index 0,
transformation types elsewhere), not by the acceptance schema. -/
theorem c5_category_enforcement :
    (∀ f : PipelineForm, formAccepts brickConfigV2 f = true →
      f.sink.type = "Elasticsearch") ∧
    (∀ (f : PipelineForm) (b : Brick), formAccepts brickConfigV2 f = true →
      b ∈ f.processors → brickAccepted brickConfigV2 b = true) ∧
    (selectableBrickTypes 0 = sourceBrickTypes) ∧
    (∀ i : Nat, i ≠ 0 → selectableBrickTypes i = transformationBrickTypes) := by
  refine ⟨?_, ?_, rfl, ?_⟩
  · intro f hf
    simp only [formAccepts, Bool.and_eq_true] at hf
    have hs := hf.2
    simp only [sinkAccepted, Bool.and_eq_true, decide_eq_true_eq] at hs
    exact hs.1.1
  · intro f b hf hb
    simp only [formAccepts, Bool.and_eq_true] at hf
    exact List.all_eq_true.mp hf.1.2 b hb
  · intro i hi
    simp [selectableBrickTypes, hi]

/-- C5 witness: a well-formed HTTP pipeline is accepted with the
Elasticsearch sink, its bricks pass their schemas, and index 1 of the
selector offers the transformation types. -/
theorem c5_category_enforcement_witness :
    validHttpFormEx.sink.type = "Elasticsearch" ∧
    brickAccepted brickConfigV2 ⟨"HTTP", [("port", "8080"), ("path", "/data")]⟩ = true ∧
    selectableBrickTypes 1 = transformationBrickTypes :=
  ⟨c5_category_enforcement.1 validHttpFormEx (by decide),
   c5_category_enforcement.2.1 validHttpFormEx
     ⟨"HTTP", [("port", "8080"), ("path", "/data")]⟩ (by decide) (by decide),
   c5_category_enforcement.2.2.2 1 (by decide)⟩

/-- C1 counterexample: diagnostics are not accumulated.  With model
responses on which both the logical check and the translation check fail,
the returned result carries only the logical check's single feedback
string, and is unchanged by whether the translation check would fail or
succeed — the flow stops at the first failed check. -/
theorem c1_first_failure_stops :
    translateFlowToNifiFlow translateNoOutputEx (mkTranslateInput sampleValidateInputEx) =
      .error "Failed to get a translated output from the AI model." ∧
    validateConfigurationAction promptSaysInvalidEx translateNoOutputEx sampleValidateInputEx =
      ⟨false, "The source brick is missing a listening port."⟩ ∧
    validateConfigurationAction promptSaysInvalidEx translateNoOutputEx sampleValidateInputEx =
      validateConfigurationAction promptSaysInvalidEx translateEmptyPlanEx sampleValidateInputEx :=
  ⟨rfl, rfl, rfl⟩

/-- C1 (amended): the validate operation never raises — the server action
converts every error thrown by the flow into an invalid result — but it
does not accumulate diagnostics: when the logical check reports invalid,
the action returns exactly that single feedback and never consults the
translation step. -/
theorem c1_never_raises_single_feedback :
    (∀ (pO : PromptOracle) (tO : TranslateOracle) (input : ValidateInput) (e : String),
      validateConfigurationFlow pO tO input = .error e →
      validateConfigurationAction pO tO input =
        ⟨false, "An unexpected error occurred while validating the configuration: " ++ e⟩) ∧
    (∀ (pO : PromptOracle) (tO tO2 : TranslateOracle) (input : ValidateInput)
      (out : ValidateOutput),
      pO input = .ok (some out) → out.isValid = false →
      validateConfigurationAction pO tO input = out ∧
      validateConfigurationAction pO tO input = validateConfigurationAction pO tO2 input) := by
  constructor
  · intro pO tO input e h
    simp [validateConfigurationAction, h]
  · intro pO tO tO2 input out hp hv
    have hflow : ∀ tO3 : TranslateOracle,
        validateConfigurationFlow pO tO3 input = .ok out := by
      intro tO3
      simp [validateConfigurationFlow, hp, hv]
    exact ⟨by simp [validateConfigurationAction, hflow tO],
      by simp [validateConfigurationAction, hflow tO, hflow tO2]⟩

/-- C1 witness: a rejecting model call is converted to a result by the
action, and an invalid logical verdict is returned as the single
feedback. -/
theorem c1_never_raises_single_feedback_witness :
    validateConfigurationAction promptThrowsEx translateEmptyPlanEx sampleValidateInputEx =
      ⟨false, "An unexpected error occurred while validating the configuration: " ++
        "model unavailable"⟩ ∧
    validateConfigurationAction promptSaysInvalidEx translateThrowsEx sampleValidateInputEx =
      ⟨false, "The source brick is missing a listening port."⟩ :=
  ⟨c1_never_raises_single_feedback.1 promptThrowsEx translateEmptyPlanEx
     sampleValidateInputEx "model unavailable" rfl,
   (c1_never_raises_single_feedback.2 promptSaysInvalidEx translateThrowsEx
     translateNoOutputEx sampleValidateInputEx
     ⟨false, "The source brick is missing a listening port."⟩ rfl rfl).1⟩

/-- C2 counterexample: the validate operation is not a pure function of the
pipeline definition.  On the same input, two different model responses
produce two different ValidationResults — the result depends on the
awaited model call, not only on the definition. -/
theorem c2_not_input_determined :
    validateConfigurationAction promptSaysValidEx translateEmptyPlanEx sampleValidateInputEx =
      ⟨true, "The flow is logically coherent."⟩ ∧
    validateConfigurationAction promptSaysInvalidEx translateEmptyPlanEx sampleValidateInputEx =
      ⟨false, "The source brick is missing a listening port."⟩ ∧
    (⟨true, "The flow is logically coherent."⟩ : ValidateOutput) ≠
      ⟨false, "The source brick is missing a listening port."⟩ :=
  ⟨rfl, rfl, by decide⟩

/-- C2 (amended): the validate operation is deterministic only relative to
the model responses — its result is a function of the input together with
the model responses at the prompt inputs the code constructs. -/
theorem c2_deterministic_given_model (pO pO2 : PromptOracle) (tO tO2 : TranslateOracle)
    (input : ValidateInput)
    (hp : pO input = pO2 input)
    (ht : tO (mkTranslateInput input) = tO2 (mkTranslateInput input)) :
    validateConfigurationAction pO tO input = validateConfigurationAction pO2 tO2 input := by
  unfold validateConfigurationAction validateConfigurationFlow translateFlowToNifiFlow
  rw [hp, ht]

/-- C2 witness: two pointwise-agreeing model oracles give the same
result. -/
theorem c2_deterministic_given_model_witness :
    validateConfigurationAction promptSaysValidEx translateEmptyPlanEx sampleValidateInputEx =
      validateConfigurationAction promptSaysValidHttpOnlyEx translateEmptyPlanEx
        sampleValidateInputEx :=
  c2_deterministic_given_model promptSaysValidEx promptSaysValidHttpOnlyEx
    translateEmptyPlanEx translateEmptyPlanEx sampleValidateInputEx rfl rfl

/-- C4: a failed lowering aborts the whole compilation with a single
terminal error and a partial plan is never returned: a successful
translation returns exactly the model's complete plan, a missing model
output becomes the single terminal translation error, and inside the
validation flow a translation error yields one invalid result carrying the
translation-failure feedback (no plan). -/
theorem c4_lowering_failure_aborts :
    (∀ (mO : TranslateOracle) (input : TranslateInput) (out : TranslateOutput),
      translateFlowToNifiFlow mO input = .ok out → mO input = .ok (some out)) ∧
    (∀ (mO : TranslateOracle) (input : TranslateInput),
      mO input = .ok none →
      translateFlowToNifiFlow mO input =
        .error "Failed to get a translated output from the AI model.") ∧
    (∀ (pO : PromptOracle) (mO : TranslateOracle) (input : ValidateInput)
      (out : ValidateOutput) (e : String),
      pO input = .ok (some out) → out.isValid = true →
      translateFlowToNifiFlow mO (mkTranslateInput input) = .error e →
      validateConfigurationFlow pO mO input = .ok ⟨false, translationFailFeedback e⟩) := by
  refine ⟨?_, ?_, ?_⟩
  · intro mO input out h
    unfold translateFlowToNifiFlow at h
    cases hm : mO input with
    | error e => rw [hm] at h; cases h
    | ok o =>
      cases o with
      | none => rw [hm] at h; cases h
      | some v => rw [hm] at h; injection h with h2; rw [h2]
  · intro mO input h
    simp [translateFlowToNifiFlow, h]
  · intro pO mO input out e hp hv ht
    simp [validateConfigurationFlow, hp, hv, ht]

/-- C4 witness: a complete plan is passed through whole; a missing output
and a rejected translation each produce the single terminal error. -/
theorem c4_lowering_failure_aborts_witness :
    translateEmptyPlanEx (mkTranslateInput sampleValidateInputEx) = .ok (some ⟨[]⟩) ∧
    translateFlowToNifiFlow translateNoOutputEx (mkTranslateInput sampleValidateInputEx) =
      .error "Failed to get a translated output from the AI model." ∧
    validateConfigurationFlow promptSaysValidEx translateThrowsEx sampleValidateInputEx =
      .ok ⟨false, translationFailFeedback "Jolt spec unparseable"⟩ :=
  ⟨c4_lowering_failure_aborts.1 translateEmptyPlanEx
     (mkTranslateInput sampleValidateInputEx) ⟨[]⟩ rfl,
   c4_lowering_failure_aborts.2.1 translateNoOutputEx
     (mkTranslateInput sampleValidateInputEx) rfl,
   c4_lowering_failure_aborts.2.2 promptSaysValidEx translateThrowsEx sampleValidateInputEx
     ⟨true, "The flow is logically coherent."⟩ "Jolt spec unparseable" rfl rfl rfl⟩

/-- C6: the step sequence built for a pipeline follows the pipeline order —
the ingestion step from the source comes first, then one step per
transformation processor in their definition order (steps 2 to n+1), and
the sink's write step comes last (step n+2). -/
theorem c6_units_follow_pipeline_order (name sourceType : String) (sink : ExecSink)
    (ps : List Json) (hnn : ∀ p ∈ ps, p ≠ Json.null) :
    simulateRun name sourceType sink (.ok (Json.obj [("processors", Json.arr ps)])) =
      .ok (introLine name ++ ingestLine sourceType ++ specTransformLines ps 0 ++
        writeLine sink ps.length ++ footerLine ps.length) :=
  simulateRun_obj_arr name sourceType sink [("processors", Json.arr ps)] ps
    (by simp [lookupJson]) hnn

/-- C6 witness: a two-transformation pipeline produces the ordered step
message. -/
theorem c6_units_follow_pipeline_order_witness :
    simulateRun "Orders API ingestion" "HTTP" execSinkEx
      (.ok (Json.obj [("processors", Json.arr
        [Json.obj [("type", Json.str "CSV to JSON")],
         Json.obj [("type", Json.str "Split JSON")]])])) =
    .ok (introLine "Orders API ingestion" ++ ingestLine "HTTP" ++
      specTransformLines
        [Json.obj [("type", Json.str "CSV to JSON")],
         Json.obj [("type", Json.str "Split JSON")]] 0 ++
      writeLine execSinkEx 2 ++ footerLine 2) :=
  c6_units_follow_pipeline_order "Orders API ingestion" "HTTP" execSinkEx
    [Json.obj [("type", Json.str "CSV to JSON")], Json.obj [("type", Json.str "Split JSON")]]
    (by
      intro p hp
      have h1 : p = Json.obj [("type", Json.str "CSV to JSON")] ∨
          p = Json.obj [("type", Json.str "Split JSON")] := by simpa using hp
      rcases h1 with h | h <;> subst h <;> exact fun hh => Json.noConfusion hh)

/-- C9 counterexample: the execute operation can return success = false on
an input whose flow definition is parseable JSON.  The string `null`
parses, but reading `flow.processors` on the parsed `null` throws, so the
catch branch reports failure. -/
theorem c9_success_false_on_parseable :
    executePipelineFlowModel "Orders pipeline" "HTTP" execSinkEx (.ok Json.null) =
      ⟨false, "An error occurred during the simulated pipeline execution: Cannot read properties of null (reading processors). Check if the flow definition is valid JSON."⟩ :=
  rfl

/-- C9 (amended): execution performs no semantic validation — for a flow
definition parsing to an object whose `processors` member is an array of
non-null values (or is absent), it returns success = true with a message
whose summary counts exactly processors + 2 steps, regardless of what
`validate` would say; an unparseable flow definition (and also a parseable
one whose member accesses throw) yields success = false. -/
theorem c9_no_semantic_validation :
    (∀ (name sourceType : String) (sink : ExecSink) (e : String),
      executePipelineFlowModel name sourceType sink (.error e) =
        ⟨false, "An error occurred during the simulated pipeline execution: " ++ e ++
          ". Check if the flow definition is valid JSON."⟩) ∧
    (∀ (name sourceType : String) (sink : ExecSink) (ms : List (String × Json))
      (ps : List Json),
      lookupJson ms "processors" = some (Json.arr ps) → (∀ p ∈ ps, p ≠ Json.null) →
      executePipelineFlowModel name sourceType sink (.ok (Json.obj ms)) =
        ⟨true, introLine name ++ ingestLine sourceType ++ specTransformLines ps 0 ++
          writeLine sink ps.length ++ footerLine ps.length⟩) ∧
    (∀ (name sourceType : String) (sink : ExecSink) (ms : List (String × Json)),
      lookupJson ms "processors" = none →
      executePipelineFlowModel name sourceType sink (.ok (Json.obj ms)) =
        ⟨true, introLine name ++ ingestLine sourceType ++ "" ++
          writeLine sink 0 ++ footerLine 0⟩) := by
  refine ⟨?_, ?_, ?_⟩
  · intro name st sink e
    rfl
  · intro name st sink ms ps hm hnn
    simp [executePipelineFlowModel, simulateRun_obj_arr name st sink ms ps hm hnn]
  · intro name st sink ms hm
    simp [executePipelineFlowModel, simulateRun_obj_none name st sink ms hm]

/-- C9 witness: a parse failure reports failure; a one-transformation
parsed flow succeeds with a three-step summary. -/
theorem c9_no_semantic_validation_witness :
    executePipelineFlowModel "Orders" "HTTP" execSinkEx
      (.error "Unexpected end of JSON input") =
      ⟨false, "An error occurred during the simulated pipeline execution: " ++
        "Unexpected end of JSON input" ++ ". Check if the flow definition is valid JSON."⟩ ∧
    executePipelineFlowModel "Orders" "HTTP" execSinkEx
      (.ok (Json.obj [("processors", Json.arr [Json.obj [("type", Json.str "Merge Records")]])])) =
      ⟨true, introLine "Orders" ++ ingestLine "HTTP" ++
        specTransformLines [Json.obj [("type", Json.str "Merge Records")]] 0 ++
        writeLine execSinkEx 1 ++ footerLine 1⟩ :=
  ⟨c9_no_semantic_validation.1 "Orders" "HTTP" execSinkEx "Unexpected end of JSON input",
   c9_no_semantic_validation.2.1 "Orders" "HTTP" execSinkEx
     [("processors", Json.arr [Json.obj [("type", Json.str "Merge Records")]])]
     [Json.obj [("type", Json.str "Merge Records")]] rfl
     (by
       intro p hp
       have h1 : p = Json.obj [("type", Json.str "Merge Records")] := by simpa using hp
       subst h1
       exact fun hh => Json.noConfusion hh)⟩

end Dataflow
